import Mathlib

/-!
Verification of the WhoRang AI Doorbell Home Assistant integration
(`custom_components/whorang`).

The Python source is shallowly embedded: JSON-like values and Python
dictionaries become an inductive `JValue` and association lists with
unique keys, async calls to external systems (the backend REST API, the
WebSocket library, Home Assistant services) become explicit oracle
parameters, and each handler becomes a pure function from its inputs and
the coordinator state to the new state plus the list of Home Assistant
events it fires.  Machine-level effects (logging, real time, task
scheduling) are not modelled; where Python would raise an exception the
embedding returns an `Except`/`Option` failure or mirrors the caller's
`except` clause explicitly, as noted next to each definition.
-/

namespace WhoRang

/-! ## JSON-like values and Python dictionaries

Python dictionaries holding backend JSON are modelled as association
lists `List (String × JValue)` with the usual unique-key discipline;
`lookupKey`, `setKey`, `eraseKey` and `updateDict` mirror `d[k]`,
`d[k] = v`, `d.pop(k, None)` and `d.update(other)`. -/

inductive JValue where
  | null
  | bool (b : Bool)
  | num (n : Int)
  | rat (q : Rat)
  | str (s : String)
  | arr (xs : List JValue)
  | obj (fields : List (String × JValue))

/-- A Python dict with string keys and JSON-like values. -/
abbrev Dict := List (String × JValue)

/-- `lookupKey d k` models `d.get(k)` returning `None` for a missing key
(`none` here distinguishes a missing key from a stored `None`). -/
def lookupKey : Dict → String → Option JValue
  | [], _ => none
  | (k, v) :: rest, key => if k = key then some v else lookupKey rest key

/-- `d.get(k)`: missing keys read as Python `None`. -/
def dictGet (d : Dict) (k : String) : JValue :=
  (lookupKey d k).getD .null

/-- `d.get(k, default)`. -/
def dictGetD (d : Dict) (k : String) (default : JValue) : JValue :=
  (lookupKey d k).getD default

/-- `d[k] = v`: replace the value in place (Python dicts keep the key's
insertion position) or append a fresh key at the end. -/
def setKey : Dict → String → JValue → Dict
  | [], key, v => [(key, v)]
  | (k, w) :: rest, key, v =>
    if k = key then (k, v) :: rest else (k, w) :: setKey rest key v

/-- `d.pop(k, None)` / building `d.copy()` without key `k`.  On a
well-formed dict (unique keys) filtering equals removing the single
entry. -/
def eraseKey (d : Dict) (k : String) : Dict :=
  d.filter (fun kv => kv.1 ≠ k)

/-- `d.update(other)`: assign every key of `other` in order. -/
def updateDict (d other : Dict) : Dict :=
  other.foldl (fun acc kv => setKey acc kv.1 kv.2) d

/-- Python truthiness of a JSON-like value. -/
def JValue.truthy : JValue → Bool
  | .null => false
  | .bool b => b
  | .num n => n != 0
  | .rat q => q != 0
  | .str s => s.data ≠ []
  | .arr xs => !xs.isEmpty
  | .obj fields => !fields.isEmpty

/-- Python `v == t` against a string literal: values of another type
compare unequal without raising. -/
def jvalEqStr (v : JValue) (t : String) : Bool :=
  match v with
  | .str s => s = t
  | _ => false

/-- Python `a or b` on values: `a` when truthy, else `b`. -/
def pyOr (a b : JValue) : JValue :=
  if a.truthy then a else b

mutual

/-- Python `==` between two JSON-like values (mismatched types compare
unequal; no exception). -/
def JValue.beq : JValue → JValue → Bool
  | .null, .null => true
  | .bool a, .bool b => a = b
  | .num a, .num b => a = b
  | .rat a, .rat b => a = b
  | .str a, .str b => a = b
  | .arr xs, .arr ys => JValue.beqList xs ys
  | .obj xs, .obj ys => JValue.beqFields xs ys
  | _, _ => false

/-- Elementwise `==` on JSON arrays. -/
def JValue.beqList : List JValue → List JValue → Bool
  | [], [] => true
  | x :: xs, y :: ys => JValue.beq x y && JValue.beqList xs ys
  | _, _ => false

/-- Entrywise `==` on JSON objects (Python dict equality is
order-insensitive, but the coordinator only ever compares scalar
`visitor_id` values, for which this entrywise version agrees). -/
def JValue.beqFields : List (String × JValue) → List (String × JValue) → Bool
  | [], [] => true
  | (k, v) :: xs, (l, w) :: ys => k = l && JValue.beq v w && JValue.beqFields xs ys
  | _, _ => false

end

/-- A Home Assistant bus event: `hass.bus.async_fire(event_type, payload)`. -/
structure FiredEvent where
  eventType : String
  payload : Dict

/-! ## Character-level string helpers

The Python string operations used by the integration (`str.strip`,
`str.startswith`, `in`, `str.split`, `str.lower`) are modelled over
`List Char` so that they compute by structural recursion. -/

/-- `str.strip()`: drop whitespace from both ends. -/
def stripChars (cs : List Char) : List Char :=
  ((cs.dropWhile Char.isWhitespace).reverse.dropWhile Char.isWhitespace).reverse

/-- `s.startswith(p)`. -/
def startsWithChars (p cs : List Char) : Bool :=
  p.isPrefixOf cs

/-- `c in s` for a single character. -/
def containsChar (c : Char) (cs : List Char) : Bool :=
  cs.any (fun x => x = c)

/-- `s.split(sep)` for a one-character separator. -/
def splitOnChar (c : Char) : List Char → List (List Char)
  | [] => [[]]
  | x :: rest =>
    let r := splitOnChar c rest
    if x = c then [] :: r
    else
      match r with
      | [] => [[x]]
      | h :: t => (x :: h) :: t

/-- The part of `s.split(sep, 1)` before the first separator. -/
def takeUntilChar (c : Char) (cs : List Char) : List Char :=
  cs.takeWhile (fun x => x ≠ c)

/-- The part of `s.split(sep, 1)` after the first separator
(everything when the separator does not occur). -/
def dropThroughChar (c : Char) : List Char → List Char
  | [] => []
  | x :: rest => if x = c then rest else dropThroughChar c rest

/-- The last component of `s.rpartition(sep)` for a one-character
separator: the suffix after the last occurrence, or `s` itself. -/
def afterLastChar (c : Char) (cs : List Char) : List Char :=
  (splitOnChar c cs).getLastD cs

/-- Natural number denoted by a list of decimal digits. -/
def digitsToNat (cs : List Char) : Nat :=
  cs.foldl (fun acc c => acc * 10 + (c.toNat - 48)) 0

/-- Python `int(s)` on a stripped string: an optional sign followed by at
least one decimal digit (the underscore digit-grouping syntax accepted
by CPython is not modelled; no claim exercises it). -/
def pyIntCore : List Char → Option Int
  | '+' :: rest =>
    if rest ≠ [] ∧ rest.all Char.isDigit then some (Int.ofNat (digitsToNat rest)) else none
  | '-' :: rest =>
    if rest ≠ [] ∧ rest.all Char.isDigit then some (-(Int.ofNat (digitsToNat rest))) else none
  | cs =>
    if cs ≠ [] ∧ cs.all Char.isDigit then some (Int.ofNat (digitsToNat cs)) else none

/-- Python `int(s)` (which strips surrounding whitespace itself). -/
def pyInt (cs : List Char) : Option Int :=
  pyIntCore (stripChars cs)

/-! ## `config_flow.parse_whorang_url` -/

/-- `const.DEFAULT_PORT`. -/
def DEFAULT_PORT : Int := 3001

/-- The `(host, port, use_ssl)` tuple returned by `parse_whorang_url`. -/
structure ParsedUrl where
  host : String
  port : Int
  useSsl : Bool
deriving DecidableEq, Repr

/-- One dotted-quad octet accepted by `ipaddress.ip_address`: one to
three decimal digits, value at most 255, no leading zero. -/
def isIPv4Octet (cs : List Char) : Bool :=
  cs ≠ [] && cs.all Char.isDigit && cs.length ≤ 3 &&
    (cs.length = 1 || cs.headD '0' ≠ '0') && digitsToNat cs ≤ 255

/-- `ipaddress.ip_address(s)` succeeding on a colon-free string, i.e. a
valid IPv4 dotted quad (an IPv6 literal contains a colon, so the
call sites below never reach this test with one). -/
def isIPv4 (cs : List Char) : Bool :=
  match splitOnChar '.' cs with
  | [a, b, c, d] => isIPv4Octet a && isIPv4Octet b && isIPv4Octet c && isIPv4Octet d
  | _ => false

/-- The `scheme://` prefix length: 8 for `https://`, else 7 for `http://`. -/
def schemeLen (cs : List Char) : Nat :=
  if startsWithChars "https://".toList cs then 8 else 7

/-- `urllib.parse.urlparse(url).netloc`: between `//` and the next
`/`, `?` or `#`. -/
def netlocOf (cs : List Char) : List Char :=
  (cs.drop (schemeLen cs)).takeWhile (fun c => c ≠ '/' ∧ c ≠ '?' ∧ c ≠ '#')

/-- `urlparse(url).hostname` and `.port` for a non-bracketed netloc:
drop the userinfo up to the last `@`, split on the first `:`; the
hostname is lowercased, `.port` parses the digits and enforces the
range 0–65535, raising `ValueError` (`Except.error`) otherwise.
(Bracketed IPv6 netlocs are not modelled; no claim exercises them.) -/
def urlparseHostPort (cs : List Char) : Except String (Option String × Option Int) :=
  let hostinfo := afterLastChar '@' (netlocOf cs)
  let hostChars := takeUntilChar ':' hostinfo
  let hostOpt : Option String :=
    if hostChars = [] then none else some (String.mk (hostChars.map Char.toLower))
  if containsChar ':' hostinfo then
    let portChars := dropThroughChar ':' hostinfo
    if portChars = [] then .ok (hostOpt, none)
    else
      match pyInt portChars with
      | none => .error "Port could not be cast to integer value"
      | some p =>
        if 0 ≤ p ∧ p ≤ 65535 then .ok (hostOpt, some p)
        else .error "Port out of range 0-65535"
  else .ok (hostOpt, none)

/-- `config_flow.parse_whorang_url` on the stripped input (the function
strips its argument once at entry). -/
def parseWhorangUrlStripped (t : List Char) : Except String ParsedUrl :=
  if startsWithChars "http://".toList t ∨ startsWithChars "https://".toList t then
    let useSsl := startsWithChars "https://".toList t
    match urlparseHostPort t with
    | .error e => .error e
    | .ok (hostOpt, portOpt) =>
      match hostOpt with
      | none => .error "Invalid URL: missing hostname"
      | some host =>
        let port := portOpt.getD (if useSsl then 443 else 80)
        .ok ⟨host, port, useSsl⟩
  else if containsChar ':' t then
    let host := takeUntilChar ':' t
    let portStr := dropThroughChar ':' t
    if host = [] then .error "Invalid URL: missing hostname"
    else
      match pyInt portStr with
      | some p => .ok ⟨String.mk host, p, p == 443⟩
      | none => .error "Invalid port number"
  else if isIPv4 t then .ok ⟨String.mk t, DEFAULT_PORT, false⟩
  else .ok ⟨String.mk t, 443, true⟩

/-- `config_flow.parse_whorang_url`: empty or whitespace-only input
raises `ValueError`, otherwise the stripped input is dispatched on its
shape. -/
def parse_whorang_url (urlInput : String) : Except String ParsedUrl :=
  if urlInput.toList = [] ∨ stripChars urlInput.toList = [] then
    .error "URL cannot be empty"
  else parseWhorangUrlStripped (stripChars urlInput.toList)

/-! ## Constants from `const.py` -/

/-- `const.DOMAIN`. -/
def DOMAIN : String := "whorang"

/-- `const.EVENT_VISITOR_DETECTED` (`f"{DOMAIN}_visitor_detected"`). -/
def EVENT_VISITOR_DETECTED : String := "whorang_visitor_detected"

/-- `const.EVENT_KNOWN_VISITOR_DETECTED`. -/
def EVENT_KNOWN_VISITOR_DETECTED : String := "whorang_known_visitor_detected"

/-- `const.EVENT_AI_ANALYSIS_COMPLETE`. -/
def EVENT_AI_ANALYSIS_COMPLETE : String := "whorang_ai_analysis_complete"

/-- `const.EVENT_AUTOMATION_STARTED`. -/
def EVENT_AUTOMATION_STARTED : String := "whorang_automation_started"

/-- `const.EVENT_DOORBELL_DETECTED`. -/
def EVENT_DOORBELL_DETECTED : String := "whorang_doorbell_detected"

/-! ## `coordinator._websocket_handler`: reconnect with backoff

Each pass of the `while True:` loop either fails to connect (one of the
three `except` clauses catches `InvalidStatusCode`, `ConnectionClosed`
/ `OSError`, or any other `Exception`), or connects — resetting the
delay to 1 — and later ends, either by a caught exception from the
message loop or by the `async for` finishing cleanly.  A cancelled task
(`asyncio.CancelledError`, not an `Exception`) is the only way out of
the loop and is not an iteration. -/

/-- How one `while True:` iteration of `_websocket_handler` ends. -/
inductive ConnOutcome where
  /-- `websockets.connect` raised: one of the three `except` clauses runs
  (invalid status code, connection closed, OS error, or any other
  exception) without the delay having been reset. -/
  | failBeforeConnect
  /-- The connection succeeded (`reconnect_delay = 1`) and the message
  loop later raised a caught exception. -/
  | connectedThenDrop
  /-- The connection succeeded and the `async for` ended without an
  exception: the loop repeats without sleeping. -/
  | connectedThenClean
deriving DecidableEq, Repr

/-- `max_reconnect_delay` from `_websocket_handler`. -/
def maxReconnectDelay : Nat := 60

/-- One loop iteration of `_websocket_handler`, given the current
`reconnect_delay`: the sleeps performed (`await asyncio.sleep(...)`)
and the delay carried to the next iteration.  Each `except` clause
sleeps the current delay and then sets
`reconnect_delay = min(reconnect_delay * 2, max_reconnect_delay)`;
a successful connection first resets `reconnect_delay = 1`. -/
def wsIteration (delay : Nat) : ConnOutcome → List Nat × Nat
  | .failBeforeConnect => ([delay], min (delay * 2) maxReconnectDelay)
  | .connectedThenDrop => ([1], min (1 * 2) maxReconnectDelay)
  | .connectedThenClean => ([], 1)

/-- Run the handler loop from delay `d` over a finite prefix of
iteration outcomes, collecting all sleeps and the final delay.  The
loop body catches every `Exception`, so each outcome yields exactly one
completed iteration and the loop continues. -/
def wsRun (d : Nat) : List ConnOutcome → List Nat × Nat
  | [] => ([], d)
  | o :: os =>
    let step := wsIteration d o
    let rest := wsRun step.2 os
    (step.1 ++ rest.1, rest.2)

/-- `_websocket_handler` starts with `reconnect_delay = 1`. -/
def websocketHandler (outcomes : List ConnOutcome) : List Nat × Nat :=
  wsRun 1 outcomes

/-- The outcomes whose iteration runs an `except` clause (and hence
sleeps) rather than ending the connection cleanly. -/
def isCaughtFailure : ConnOutcome → Bool
  | .failBeforeConnect => true
  | .connectedThenDrop => true
  | .connectedThenClean => false

/-! ## `coordinator._handle_string_message` and `_handle_json_message` -/

/-- Which branch of `_handle_string_message` a string message takes. -/
inductive StringMsgClass where
  | newVisitor
  | systemUpdate
  | doorbellRing
  | faceProcessingComplete
  | aiAnalysisComplete
  | unknown
deriving DecidableEq, Repr

/-- `_handle_string_message`: the branch taken and whether
`async_request_refresh` is awaited (every branch, known or unknown,
requests a refresh). -/
def handleStringMessage (m : String) : StringMsgClass × Bool :=
  if m = "new_visitor" then (.newVisitor, true)
  else if m = "system_update" then (.systemUpdate, true)
  else if m = "doorbell_ring" then (.doorbellRing, true)
  else if m = "face_processing_complete" then (.faceProcessingComplete, true)
  else if m = "ai_analysis_complete" then (.aiAnalysisComplete, true)
  else (.unknown, true)

/-- The handler methods `_handle_json_message` dispatches to on the
message's `type` field. -/
inductive JsonHandler where
  | newVisitor
  | aiAnalysisComplete
  | faceDetectionComplete
  | systemStatus
  | connectionStatus
  | faceRecognized
  | unknownFaceDetected
  | faceProcessingComplete
  | faceProcessingError
  | databaseCleared
  | analysisStarted
  | analysisCompleteAuto
  | analysisError
  | unknownType
deriving DecidableEq, Repr

/-- The `type` field read by `_handle_json_message`:
`data.get("type", "unknown")`. -/
def jsonMessageType (msg : Dict) : JValue :=
  dictGetD msg "type" (.str "unknown")

/-- The `if/elif` chain of `_handle_json_message` (each `WS_TYPE_*`
constant equals the corresponding string literal, so the doubled
comparisons in the source collapse). -/
def dispatchJsonType : JValue → JsonHandler
  | .str t =>
    if t = "new_visitor" then .newVisitor
    else if t = "ai_analysis_complete" then .aiAnalysisComplete
    else if t = "face_detection_complete" then .faceDetectionComplete
    else if t = "system_status" then .systemStatus
    else if t = "connection_status" then .connectionStatus
    else if t = "face_recognized" then .faceRecognized
    else if t = "unknown_face_detected" then .unknownFaceDetected
    else if t = "face_processing_complete" then .faceProcessingComplete
    else if t = "face_processing_error" then .faceProcessingError
    else if t = "database_cleared" then .databaseCleared
    else if t = "analysis_started" then .analysisStarted
    else if t = "analysis_complete" then .analysisCompleteAuto
    else if t = "analysis_error" then .analysisError
    else .unknownType
  | _ => .unknownType

/-- `_handle_json_message`: the handler dispatched on the `type` field
and whether `async_request_refresh` is awaited afterwards.  The refresh
follows the whole `if/elif` chain, so it is requested for every message
type, the unknown one included (a handler that raises is caught by the
surrounding `except`, which models an aborted — not a handled —
message and is outside this definition). -/
def handleJsonMessage (msg : Dict) : JsonHandler × Bool :=
  (dispatchJsonType (jsonMessageType msg), true)

/-- `_handle_websocket_message` routing: a string not starting with
`'{'` after stripping is a simple string message; otherwise the JSON
parse (`parseResult` oracle for `json.loads`) decides between a JSON
dict message and the string fallback. -/
inductive WsRoute where
  | stringMsg (m : List Char)
  | jsonMsg (d : Dict)

/-- The routing logic of `_handle_websocket_message` for string frames. -/
def routeWebSocketMessage (m : List Char) (parseResult : Option Dict) : WsRoute :=
  if ¬ startsWithChars "\x7b".toList (stripChars m) then .stringMsg (stripChars m)
  else
    match parseResult with
    | some d => .jsonMsg d
    | none => .stringMsg (stripChars m)

/-! ## `coordinator._is_known_visitor` and `_handle_new_visitor` -/

/-- Python `x > 0` on a JSON value: defined for numbers and booleans,
a `TypeError` (`none`) otherwise. -/
def pyGtZero : JValue → Option Bool
  | .num n => some (0 < n)
  | .bool b => some b
  | _ => none

/-- `visitor_data.get("person_id") is not None`: the key is present
with a non-`None` value. -/
def hasPersonId (v : Dict) : Bool :=
  match lookupKey v "person_id" with
  | some .null => false
  | some _ => true
  | none => false

/-- `_is_known_visitor`: `faces_detected` (default 0) strictly positive
and a non-`None` `person_id`.  `none` models the `TypeError` Python
raises when `faces_detected` is neither a number nor a boolean. -/
def isKnownVisitor (visitorData : Dict) : Option Bool :=
  match pyGtZero (dictGetD visitorData "faces_detected" (.num 0)) with
  | none => none
  | some gt => if gt then some (hasPersonId visitorData) else some false

/-- The event payload fired by `_handle_new_visitor`. -/
def newVisitorPayload (visitorData : Dict) (isKnown : Bool) : Dict :=
  [("visitor_id", dictGet visitorData "visitor_id"),
   ("timestamp", dictGet visitorData "timestamp"),
   ("ai_message", dictGet visitorData "ai_message"),
   ("ai_title", dictGet visitorData "ai_title"),
   ("location", dictGet visitorData "location"),
   ("image_url", dictGet visitorData "image_url"),
   ("is_known_visitor", .bool isKnown),
   ("confidence_score", dictGet visitorData "confidence_score"),
   ("faces_detected", dictGetD visitorData "faces_detected" (.num 0))]

/-- `_handle_new_visitor`: sets `self._last_visitor_id` to the event's
`visitor_id` first, then fires exactly one event —
`whorang_known_visitor_detected` when `_is_known_visitor` holds, else
`whorang_visitor_detected`.  When `_is_known_visitor` raises, the id is
already updated and no event is fired (the caller catches). -/
def handleNewVisitor (visitorData : Dict) : JValue × Option FiredEvent :=
  let newLastVisitorId := dictGet visitorData "visitor_id"
  match isKnownVisitor visitorData with
  | none => (newLastVisitorId, none)
  | some known =>
    let eventType := if known then EVENT_KNOWN_VISITOR_DETECTED else EVENT_VISITOR_DETECTED
    (newLastVisitorId, some ⟨eventType, newVisitorPayload visitorData known⟩)

/-! ## `coordinator._handle_ai_analysis_complete` -/

/-- `analysis_data.get("processing_time") or analysis_data.get("processing_time_ms")`. -/
def aiProcessingTime (analysisData : Dict) : JValue :=
  pyOr (dictGet analysisData "processing_time") (dictGet analysisData "processing_time_ms")

/-- The three fields merged into `latest_visitor` by
`_handle_ai_analysis_complete`. -/
def latestVisitorAnalysisFields (analysisData : Dict) : Dict :=
  [("processing_time", aiProcessingTime analysisData),
   ("analysis_provider", dictGet analysisData "ai_provider"),
   ("analysis_timestamp", dictGet analysisData "timestamp")]

/-- The `analysis_status` entry written by `_handle_ai_analysis_complete`. -/
def aiAnalysisStatusOf (analysisData : Dict) : Dict :=
  [("visitor_id", dictGet analysisData "visitor_id"),
   ("status", .str "completed"),
   ("timestamp", dictGet analysisData "timestamp"),
   ("processing_time_ms", aiProcessingTime analysisData),
   ("provider", dictGet analysisData "ai_provider"),
   ("confidence", dictGet analysisData "confidence_score"),
   ("objects_detected", dictGet analysisData "objects_detected"),
   ("cost_usd", dictGet analysisData "cost_usd")]

/-- The payload of the `whorang_ai_analysis_complete` bus event. -/
def aiAnalysisEventPayload (analysisData : Dict) : Dict :=
  [("visitor_id", dictGet analysisData "visitor_id"),
   ("ai_provider", dictGet analysisData "ai_provider"),
   ("processing_time", aiProcessingTime analysisData),
   ("confidence_score", dictGet analysisData "confidence_score"),
   ("objects_detected", dictGet analysisData "objects_detected"),
   ("cost_usd", dictGet analysisData "cost_usd")]

/-- `_handle_ai_analysis_complete`: when cached data exists (truthy),
merge the three analysis fields into `latest_visitor` (when that key is
present) and write `analysis_status`; then fire
`whorang_ai_analysis_complete`.  `none` models the `AttributeError`
Python raises when `latest_visitor` holds a non-dict (`.update` on it);
the caller's `except` then swallows the message. -/
def handleAiAnalysisComplete (analysisData cached : Dict) : Option (Dict × List FiredEvent) :=
  let afterData : Option Dict :=
    if cached.isEmpty then some cached
    else
      let afterVisitor : Option Dict :=
        match lookupKey cached "latest_visitor" with
        | some (.obj lv) =>
          some (setKey cached "latest_visitor"
            (.obj (updateDict lv (latestVisitorAnalysisFields analysisData))))
        | some _ => none
        | none => some cached
      afterVisitor.map
        (fun d => setKey d "analysis_status" (.obj (aiAnalysisStatusOf analysisData)))
  afterData.map
    (fun d => (d, [⟨EVENT_AI_ANALYSIS_COMPLETE, aiAnalysisEventPayload analysisData⟩]))

/-! ## `coordinator._async_update_data`

The nine `await self.api_client.*` calls are gathered into a
`FetchResults` oracle; `Except.error` on the whole fetch models any of
them raising, and the per-call `Except` fields model the calls that
`_async_update_data` wraps in their own `try`. -/

/-- The results the poll obtains from the backend. -/
structure FetchResults where
  /-- `get_system_info()`. -/
  systemInfo : Dict
  /-- `get_latest_visitor()` (`none` for `None`). -/
  latestVisitor : Option Dict
  /-- `get_known_persons()`: always a list of person records. -/
  knownPersons : List Dict
  /-- `get_face_gallery_data()`. -/
  faceGalleryData : Dict
  /-- `get_ai_usage_stats(days=1)`. -/
  aiUsage : Dict
  /-- `get_current_ai_model()`. -/
  currentAiModel : JValue
  /-- `get_available_models()`. -/
  availableModels : Dict
  /-- `get_provider_models("local")`: error = the call raised; `[]`
  covers both an empty list and `None` (both falsy, never iterated). -/
  localModelsResponse : Except String (List JValue)
  /-- `get_ollama_models()` (both fallback call sites). -/
  ollamaModelsDirect : Except String (List Dict)
  /-- `get_ollama_status()`. -/
  ollamaStatus : Except String Dict
  /-- `datetime.now().isoformat()`. -/
  lastUpdateIso : String
  /-- `self._websocket is not None and not self._websocket.closed`. -/
  websocketConnected : Bool

/-- One entry of the backend's dynamic local-model response transformed
to the coordinator's format (`dict` and `str` entries are kept, any
other type is skipped by the `if/elif` chain). -/
def transformLocalModel : JValue → Option Dict
  | .obj m =>
    some [("name", dictGetD m "value" (.str "")),
          ("display_name", dictGetD m "label" (.str "")),
          ("size", dictGetD m "size" (.num 0)),
          ("is_vision", dictGetD m "is_vision" (.bool true)),
          ("recommended", dictGetD m "recommended" (.bool false))]
  | .str s =>
    some [("name", .str s),
          ("display_name", .str s),
          ("size", .num 0),
          ("is_vision", .bool true),
          ("recommended", .bool false)]
  | _ => none

/-- `[model["name"] for model in ollama_models]` (the transform always
writes `name`; a malformed direct-API record would raise `KeyError`
inside a `try` whose handler retries and then passes). -/
def modelNames (models : List Dict) : List JValue :=
  models.map (fun m => dictGet m "name")

/-- The Ollama discovery block of `_async_update_data` for the local
provider: the resulting `(ollama_models, available_models)` after the
nested `try`/`except` fallbacks. -/
def ollamaDiscovery (availableModels : Dict)
    (localResp : Except String (List JValue))
    (direct : Except String (List Dict)) : List Dict × Dict :=
  match localResp with
  | .ok resp =>
    if !resp.isEmpty then
      let oms := (resp.filterMap transformLocalModel)
      (oms, setKey availableModels "local" (.arr (modelNames oms)))
    else
      match direct with
      | .ok oms =>
        if !oms.isEmpty then (oms, setKey availableModels "local" (.arr (modelNames oms)))
        else (oms, availableModels)
      | .error _ => ([], availableModels)
  | .error _ =>
    match direct with
    | .ok oms =>
      if !oms.isEmpty then (oms, setKey availableModels "local" (.arr (modelNames oms)))
      else (oms, availableModels)
    | .error _ => ([], availableModels)

/-- `system_info.get("face_config", {}).get("ai_provider", "local")`:
`none` models the `AttributeError` on a non-dict `face_config` (the
poll's outer `except` then takes the error path). -/
def aiProviderOf (systemInfo : Dict) : Option JValue :=
  match lookupKey systemInfo "face_config" with
  | none => some (.str "local")
  | some (.obj fc) => some (dictGetD fc "ai_provider" (.str "local"))
  | some _ => none

/-- Copy `src`'s entries at the given keys into `dst`
(`if key in self.data: updated_data[key] = self.data[key]`). -/
def copyKeys (keys : List String) (src dst : Dict) : Dict :=
  keys.foldl
    (fun acc k =>
      match lookupKey src k with
      | some v => setKey acc k v
      | none => acc)
    dst

/-- The four service-call keys preserved across polls. -/
def serviceKeys : List String :=
  ["latest_image", "doorbell_state", "visitor_stats", "last_service_call"]

/-- The `updated_data` dictionary literal of `_async_update_data`, in
source order, for a given resolved `current_ai_provider` value. -/
def pollBase (f : FetchResults) (providerVal : JValue) : Dict :=
  let isLocal := jvalEqStr providerVal "local"
  let disc :=
    if isLocal then ollamaDiscovery f.availableModels f.localModelsResponse f.ollamaModelsDirect
    else ([], f.availableModels)
  let ollamaStatusVal : Dict :=
    if isLocal then
      match f.ollamaStatus with
      | .ok st => st
      | .error e => [("status", .str "unknown"), ("error", .str e)]
    else []
  [("system_info", .obj f.systemInfo),
   ("latest_visitor", .obj (f.latestVisitor.getD [])),
   ("known_persons", .arr (f.knownPersons.map JValue.obj)),
   ("face_gallery_data", .obj f.faceGalleryData),
   ("ai_usage", .obj f.aiUsage),
   ("current_ai_provider", providerVal),
   ("current_ai_model", f.currentAiModel),
   ("available_models", .obj disc.2),
   ("ollama_models", .arr (disc.1.map JValue.obj)),
   ("ollama_status", .obj ollamaStatusVal),
   ("last_update", .str f.lastUpdateIso),
   ("websocket_connected", .bool f.websocketConnected)]

/-- `updated_data` after the preserve loop: the four service-call keys
of a truthy previous dictionary are carried over. -/
def pollResult (f : FetchResults) (cached : Option Dict) (providerVal : JValue) : Dict :=
  match cached with
  | some d => if !d.isEmpty then copyKeys serviceKeys d (pollBase f providerVal) else pollBase f providerVal
  | none => pollBase f providerVal

/-- The new-visitor detection of `_async_update_data`
(`latest_visitor` truthy and its `visitor_id` different from
`self._last_visitor_id`) combined with `_handle_new_visitor` raising a
`TypeError` on malformed `faces_detected`: exactly then the poll body
aborts into the outer `except`. -/
def newVisitorCheckRaises (f : FetchResults) (lastVisitorId : JValue) : Bool :=
  (match f.latestVisitor with
   | some d => !d.isEmpty
   | none => false) &&
    !(JValue.beq (dictGet (f.latestVisitor.getD []) "visitor_id") lastVisitorId) &&
    (isKnownVisitor (f.latestVisitor.getD [])).isNone

/-- The `try` body of `_async_update_data`: the `updated_data`
dictionary a successful poll returns.  `lastVisitorId` is
`self._last_visitor_id`; `none` models an exception inside the body
(non-dict `face_config`, a person record without `"id"` in the
`self._known_persons` comprehension, or `_handle_new_visitor` raising
on malformed `faces_detected`), which the outer `except` turns into
the stale-data result. -/
def updateDataSuccess (f : FetchResults) (cached : Option Dict)
    (lastVisitorId : JValue) : Option Dict :=
  if !(f.knownPersons.all (fun p => (lookupKey p "id").isSome)) then none
  else
    match aiProviderOf f.systemInfo with
    | none => none
    | some providerVal =>
      if newVisitorCheckRaises f lastVisitorId then none
      else some (pollResult f cached providerVal)

/-- The minimal safe structure returned when nothing is cached. -/
def defaultCoordinatorData : Dict :=
  [("latest_visitor", .obj []),
   ("latest_image", .obj []),
   ("doorbell_state", .obj []),
   ("visitor_stats", .obj []),
   ("system_info", .obj []),
   ("last_service_call", .obj [])]

/-- `_async_update_data`: a successful body returns `updated_data`; any
exception is caught and the previously cached data (when truthy) or the
minimal default structure is returned instead — the method never
propagates the exception. -/
def asyncUpdateData (fetch : Except String FetchResults) (cached : Option Dict)
    (lastVisitorId : JValue) : Dict :=
  let success : Option Dict :=
    match fetch with
    | .ok f => updateDataSuccess f cached lastVisitorId
    | .error _ => none
  match success with
  | some d => d
  | none =>
    match cached with
    | some d => if !d.isEmpty then d else defaultCoordinatorData
    | none => defaultCoordinatorData

/-! ## `coordinator.async_process_doorbell_event` -/

/-- How `self.api_client.process_doorbell_event(event_data)` ends. -/
inductive BackendCall where
  /-- The call returned a truthy success. -/
  | success
  /-- The call returned falsy: `return False` after the error log. -/
  | failure
  /-- The call raised: the outer `except` returns `False`. -/
  | raised
deriving DecidableEq, Repr

/-- The weather structure built from the service-call data. -/
def weatherDataOf (eventData : Dict) : Dict :=
  [("temperature", dictGet eventData "weather_temp"),
   ("humidity", dictGet eventData "weather_humidity"),
   ("condition", dictGetD eventData "weather_condition" (.str "unknown")),
   ("wind_speed", dictGetD eventData "wind_speed" (.num 0)),
   ("pressure", dictGetD eventData "pressure" (.num 1013))]

/-- The visitor record built for a service-call doorbell event
(`nowEpoch` is `int(current_time.timestamp())`). -/
def visitorDataOf (eventData : Dict) (nowIso : String) (nowEpoch : Int) : Dict :=
  [("visitor_id", .str ("service_call_" ++ toString nowEpoch)),
   ("visitor_name", .str "Unknown Visitor"),
   ("timestamp", dictGetD eventData "timestamp" (.str nowIso)),
   ("face_recognized", .bool false),
   ("confidence", .rat (4 / 5)),
   ("ai_analysis", dictGetD eventData "ai_message" (.str "Visitor detected")),
   ("ai_title", dictGetD eventData "ai_title" (.str "Doorbell Event")),
   ("image_url", dictGet eventData "image_url"),
   ("location", dictGetD eventData "location" (.str "front_door")),
   ("weather", .obj (weatherDataOf eventData)),
   ("weather_temp", dictGet eventData "weather_temp"),
   ("weather_humidity", dictGet eventData "weather_humidity"),
   ("weather_condition", dictGet eventData "weather_condition"),
   ("wind_speed", dictGet eventData "wind_speed"),
   ("pressure", dictGet eventData "pressure"),
   ("source", dictGetD eventData "source" (.str "service_call"))]

/-- The `latest_image` entry written for a service-call event. -/
def latestImageOf (imageUrl : JValue) (nowIso : String) : Dict :=
  [("url", imageUrl),
   ("timestamp", .str nowIso),
   ("status", .str "available"),
   ("source", .str "service_call")]

/-- The `doorbell_state` entry written for a service-call event. -/
def doorbellStateOf (nowIso : String) : Dict :=
  [("last_triggered", .str nowIso),
   ("is_triggered", .bool true),
   ("trigger_source", .str "service_call")]

/-- The `last_service_call` entry. -/
def lastServiceCallOf (eventData : Dict) (nowIso : String) : Dict :=
  [("timestamp", .str nowIso), ("data", .obj eventData)]

/-- Python `x += 1` on a JSON value: numbers and booleans increment, any
other type raises `TypeError` (`none`). -/
def pyIncrOne : JValue → Option Int
  | .num n => some (n + 1)
  | .bool b => some ((if b then 1 else 0) + 1)
  | _ => none

/-- The visitor-statistics update: reset the counter when `today` is
missing or the stored `date` differs from today's date, then increment.
`none` models the `TypeError` of `+= 1` on a non-numeric counter, in
which case the statistics dict was not modified (the reset branch, when
taken, always leaves a numeric counter). -/
def bumpVisitorStats (vs : Dict) (today : String) : Option Dict :=
  let vs1 :=
    if (lookupKey vs "today").isNone || !(jvalEqStr (dictGet vs "date") today) then
      setKey (setKey vs "today" (.num 0)) "date" (.str today)
    else vs
  match pyIncrOne (dictGet vs1 "today") with
  | none => none
  | some n => some (setKey vs1 "today" (.num n))

/-- The payload of the `whorang_visitor_detected` event fired for a
service-call doorbell event. -/
def doorbellEventPayload (eventData : Dict) (nowIso : String) (nowEpoch : Int) : Dict :=
  [("visitor_data", .obj (visitorDataOf eventData nowIso nowEpoch)),
   ("event_source", .str "service_call"),
   ("image_url", dictGet eventData "image_url")]

/-- `async_process_doorbell_event`: `(return value, coordinator data,
fired events)`.  A missing/falsy `image_url`, a falsy backend reply or
a raising backend call all return `False` with the cached data
untouched; a successful backend call updates the six entries, fires
`whorang_visitor_detected` and returns `True`.  The two `| some _ =>`
fallthrough cases model a `TypeError`/`AttributeError` on a non-dict
`visitor_stats` or `system_info`, caught by the outer `except` after
the four-key update already mutated the data in place. -/
def processDoorbellEvent (eventData : Dict) (backend : BackendCall) (cached : Dict)
    (nowIso : String) (nowEpoch : Int) (today : String) : Bool × Dict × List FiredEvent :=
  let imageUrl := dictGet eventData "image_url"
  if ¬ imageUrl.truthy then (false, cached, [])
  else
    match backend with
    | .raised => (false, cached, [])
    | .failure => (false, cached, [])
    | .success =>
      let d1 := updateDict cached
        [("latest_visitor", .obj (visitorDataOf eventData nowIso nowEpoch)),
         ("latest_image", .obj (latestImageOf imageUrl nowIso)),
         ("doorbell_state", .obj (doorbellStateOf nowIso)),
         ("last_service_call", .obj (lastServiceCallOf eventData nowIso))]
      let d2 :=
        if (lookupKey d1 "visitor_stats").isNone then setKey d1 "visitor_stats" (.obj [])
        else d1
      match lookupKey d2 "visitor_stats" with
      | some (.obj vs) =>
        match bumpVisitorStats vs today with
        | none => (false, d2, [])
        | some vs2 =>
          let d3 := setKey d2 "visitor_stats" (.obj vs2)
          let d4 :=
            if (lookupKey d3 "system_info").isNone then setKey d3 "system_info" (.obj [])
            else d3
          match lookupKey d4 "system_info" with
          | some (.obj si) =>
            let d5 := setKey d4 "system_info"
              (.obj (updateDict si
                [("last_event", .str nowIso),
                 ("processing", .bool false),
                 ("last_service_call", .str nowIso)]))
            (true, d5, [⟨EVENT_VISITOR_DETECTED, doorbellEventPayload eventData nowIso nowEpoch⟩])
          | _ => (false, d4, [])
      | _ => (false, d2, [])

/-! ## `intelligent_automation.IntelligentAutomationEngine` -/

/-- `self.config.get(key, default)` used as an `if` condition. -/
def cfgFlag (config : Dict) (k : String) (default : Bool) : Bool :=
  match lookupKey config k with
  | some v => v.truthy
  | none => default

/-- The value `_capture_camera_snapshot` returns on success. -/
structure Snapshot where
  path : String
  url : String
  filename : String
  cameraEntity : String

/-- The normalized result `_perform_ai_analysis` returns on success. -/
structure AiAnalysis where
  title : String
  description : String

/-- The externally observable steps of `_handle_camera_event`, in
program order (the three fan-out tasks are gathered concurrently; they
are listed in the order the task list is built). -/
inductive PipelineStep where
  | fireDoorbellDetected
  | captureSnapshot
  | fireSnapshotCaptured
  | gatherWeather
  | requestAiAnalysis
  | fireAnalysisComplete
  | sendNotifications
  | playMedia
  | callProcessDoorbellEvent
deriving DecidableEq, Repr

/-- `_handle_camera_event`: the pipeline trace.  `snapshotResult` and
`aiResult` are the oracles for `_capture_camera_snapshot` and
`_perform_ai_analysis` (both return `None` on any internal failure and
the handler then returns early). -/
def handleCameraEvent (config : Dict) (snapshotResult : Option Snapshot)
    (aiResult : Option AiAnalysis) : List PipelineStep :=
  [.fireDoorbellDetected, .captureSnapshot] ++
    match snapshotResult with
    | none => []
    | some _ =>
      [.fireSnapshotCaptured] ++
        (if cfgFlag config "enable_weather_context" true then [.gatherWeather] else []) ++
        [.requestAiAnalysis] ++
        match aiResult with
        | none => []
        | some _ =>
          [.fireAnalysisComplete] ++
            (if cfgFlag config "enable_notifications" true then [.sendNotifications] else []) ++
            (if cfgFlag config "enable_media" true then [.playMedia] else []) ++
            [.callProcessDoorbellEvent]

/-- `_get_sanitized_config`: a copy of the config with `api_key`
popped. -/
def getSanitizedConfig (config : Dict) : Dict :=
  eraseKey config "api_key"

/-- The engine state touched by `async_start`. -/
structure EngineState where
  config : Dict
  isRunning : Bool

/-- `async_start`: already running returns `False`; a raising
initialization (service setup or camera monitoring) is caught and
returns `False` before `_is_running` is set; otherwise the engine is
marked running, `whorang_automation_started` is fired with the
sanitized config, and `True` is returned.  The engine's own config is
never modified. -/
def asyncStart (st : EngineState) (initOk : Bool) (nowIso : String) :
    EngineState × Bool × List FiredEvent :=
  if st.isRunning then (st, false, [])
  else if ¬ initOk then (st, false, [])
  else
    ({ st with isRunning := true }, true,
     [⟨EVENT_AUTOMATION_STARTED,
       [("timestamp", .str nowIso), ("config", .obj (getSanitizedConfig st.config))]⟩])

/-! ## Dictionary lemmas -/

theorem lookupKey_setKey_self (d : Dict) (k : String) (v : JValue) :
    lookupKey (setKey d k v) k = some v := by
  induction d with
  | nil => simp [setKey, lookupKey]
  | cons kv rest ih =>
    obtain ⟨k1, v1⟩ := kv
    by_cases h : k1 = k
    · simp [setKey, h, lookupKey]
    · simp [setKey, h, lookupKey, ih]

theorem lookupKey_setKey_ne (d : Dict) (k key : String) (v : JValue) (h : key ≠ k) :
    lookupKey (setKey d k v) key = lookupKey d key := by
  have h2 : k ≠ key := Ne.symm h
  induction d with
  | nil => simp [setKey, lookupKey, h2]
  | cons kv rest ih =>
    obtain ⟨k1, v1⟩ := kv
    by_cases h1 : k1 = k
    · subst h1
      simp [setKey, lookupKey, h2]
    · simp [setKey, h1, lookupKey, ih]

theorem lookupKey_updateDict_not_mem (l : Dict) (d : Dict) (key : String)
    (h : ∀ kv ∈ l, kv.1 ≠ key) :
    lookupKey (updateDict d l) key = lookupKey d key := by
  induction l generalizing d with
  | nil => simp [updateDict]
  | cons kv rest ih =>
    have hd : updateDict d (kv :: rest) = updateDict (setKey d kv.1 kv.2) rest := by
      simp [updateDict]
    rw [hd, ih _ (fun x hx => h x (List.mem_cons_of_mem kv hx)),
      lookupKey_setKey_ne _ _ _ _ (fun hk => h kv (List.mem_cons_self kv rest) hk.symm)]

theorem updateDict_cons (d : Dict) (kv : String × JValue) (rest : Dict) :
    updateDict d (kv :: rest) = updateDict (setKey d kv.1 kv.2) rest := by
  simp [updateDict]

theorem lookupKey_eraseKey_self (d : Dict) (k : String) :
    lookupKey (eraseKey d k) k = none := by
  induction d with
  | nil => simp [eraseKey, lookupKey]
  | cons kv rest ih =>
    obtain ⟨k1, v1⟩ := kv
    by_cases h : k1 = k
    · simpa [eraseKey, h] using ih
    · simpa [eraseKey, h, lookupKey] using ih

theorem eraseKey_setKey (d : Dict) (k : String) (v : JValue) :
    eraseKey (setKey d k v) k = eraseKey d k := by
  induction d with
  | nil => simp [setKey, eraseKey]
  | cons kv rest ih =>
    obtain ⟨k1, v1⟩ := kv
    by_cases h : k1 = k
    · simp [setKey, h, eraseKey]
    · have ih2 := ih
      simp only [eraseKey, ne_eq, decide_not] at ih2
      simp [setKey, h, eraseKey, List.filter_cons, ih2]

theorem copyKeys_cons (k0 : String) (rest : List String) (src dst : Dict) :
    copyKeys (k0 :: rest) src dst =
      copyKeys rest src
        (match lookupKey src k0 with
         | some v => setKey dst k0 v
         | none => dst) := by
  simp [copyKeys]

theorem lookupKey_copyKeys_not_mem (keys : List String) (src dst : Dict) (k : String)
    (h : k ∉ keys) :
    lookupKey (copyKeys keys src dst) k = lookupKey dst k := by
  induction keys generalizing dst with
  | nil => simp [copyKeys]
  | cons k0 rest ih =>
    have hne : k ≠ k0 := fun hk => h (hk ▸ List.mem_cons_self k0 rest)
    have hrest : k ∉ rest := fun hk => h (List.mem_cons_of_mem k0 hk)
    rw [copyKeys_cons]
    match hsrc : lookupKey src k0 with
    | some v => rw [ih _ hrest, lookupKey_setKey_ne _ _ _ _ hne]
    | none => rw [ih _ hrest]

theorem lookupKey_copyKeys_mem (keys : List String) (src dst : Dict) (k : String)
    (hmem : k ∈ keys) (hnd : keys.Nodup) (hsome : (lookupKey src k).isSome) :
    lookupKey (copyKeys keys src dst) k = lookupKey src k := by
  induction keys generalizing dst with
  | nil => cases hmem
  | cons k0 rest ih =>
    rw [copyKeys_cons]
    rcases List.mem_cons.mp hmem with hk | hk
    · subst hk
      obtain ⟨v, hv⟩ := Option.isSome_iff_exists.mp hsome
      have hnot : k ∉ rest := (List.nodup_cons.mp hnd).1
      rw [hv, lookupKey_copyKeys_not_mem rest src _ k hnot, lookupKey_setKey_self]
    · have hnd2 : rest.Nodup := (List.nodup_cons.mp hnd).2
      match hsrc : lookupKey src k0 with
      | some v => rw [ih _ hk hnd2]
      | none => rw [ih _ hk hnd2]

/-! ## Claim C2: WebSocket reconnect backoff -/

theorem wsRun_append (d : Nat) (xs ys : List ConnOutcome) :
    wsRun d (xs ++ ys) =
      ((wsRun d xs).1 ++ (wsRun (wsRun d xs).2 ys).1, (wsRun (wsRun d xs).2 ys).2) := by
  induction xs generalizing d with
  | nil => simp [wsRun]
  | cons o rest ih => simp [wsRun, ih]

theorem wsRun_bounds (outcomes : List ConnOutcome) (d : Nat) (h1 : 1 ≤ d) (h2 : d ≤ 60) :
    (∀ s ∈ (wsRun d outcomes).1, 1 ≤ s ∧ s ≤ 60) ∧
      1 ≤ (wsRun d outcomes).2 ∧ (wsRun d outcomes).2 ≤ 60 ∧
      (wsRun d outcomes).1.length = (outcomes.filter isCaughtFailure).length := by
  induction outcomes generalizing d with
  | nil => simpa [wsRun] using ⟨h1, h2⟩
  | cons o rest ih =>
    cases o with
    | failBeforeConnect =>
      have hstep1 : 1 ≤ min (d * 2) maxReconnectDelay := by
        simp only [maxReconnectDelay]
        omega
      have hstep2 : min (d * 2) maxReconnectDelay ≤ 60 := by
        simp only [maxReconnectDelay]
        omega
      obtain ⟨ha, hb, hc, hl⟩ := ih (min (d * 2) maxReconnectDelay) hstep1 hstep2
      refine ⟨?_, ?_, ?_, ?_⟩
      · intro s hs
        simp only [wsRun, wsIteration, List.cons_append, List.nil_append,
          List.mem_cons] at hs
        rcases hs with hs | hs
        · exact hs ▸ ⟨h1, h2⟩
        · exact ha s hs
      · simpa [wsRun, wsIteration] using hb
      · simpa [wsRun, wsIteration] using hc
      · simpa [wsRun, wsIteration, isCaughtFailure] using hl
    | connectedThenDrop =>
      have hstep1 : (1 : Nat) ≤ min (1 * 2) maxReconnectDelay := by
        simp [maxReconnectDelay]
      have hstep2 : min (1 * 2) maxReconnectDelay ≤ 60 := by
        simp [maxReconnectDelay]
      obtain ⟨ha, hb, hc, hl⟩ := ih (min (1 * 2) maxReconnectDelay) hstep1 hstep2
      refine ⟨?_, ?_, ?_, ?_⟩
      · intro s hs
        simp only [wsRun, wsIteration, List.cons_append, List.nil_append,
          List.mem_cons] at hs
        rcases hs with hs | hs
        · omega
        · exact ha s hs
      · simpa [wsRun, wsIteration] using hb
      · simpa [wsRun, wsIteration] using hc
      · simpa [wsRun, wsIteration, isCaughtFailure] using hl
    | connectedThenClean =>
      obtain ⟨ha, hb, hc, hl⟩ := ih 1 le_rfl (by omega)
      refine ⟨?_, ?_, ?_, ?_⟩
      · intro s hs
        simp only [wsRun, wsIteration, List.nil_append] at hs
        exact ha s hs
      · simpa [wsRun, wsIteration] using hb
      · simpa [wsRun, wsIteration] using hc
      · simpa [wsRun, wsIteration, isCaughtFailure] using hl

/-- C2: in `_websocket_handler`, a caught connection failure never ends
the loop — every caught failure contributes exactly one sleep and the
loop goes on; a failing iteration sleeps the current reconnect delay
and then doubles it, capped at 60 seconds; an iteration that connects
successfully resets the delay to 1 second; and every slept delay lies
between 1 and 60 seconds. -/
theorem websocket_backoff_invariant (outcomes : List ConnOutcome) :
    (∀ s ∈ (websocketHandler outcomes).1, 1 ≤ s ∧ s ≤ 60) ∧
      (websocketHandler outcomes).1.length =
        (outcomes.filter isCaughtFailure).length ∧
      (websocketHandler (outcomes ++ [.connectedThenClean])).2 = 1 ∧
      (websocketHandler (outcomes ++ [.failBeforeConnect])).2 =
        min ((websocketHandler outcomes).2 * 2) 60 ∧
      (websocketHandler (outcomes ++ [.failBeforeConnect])).1 =
        (websocketHandler outcomes).1 ++ [(websocketHandler outcomes).2] := by
  obtain ⟨ha, hb, hc, hl⟩ := wsRun_bounds outcomes 1 le_rfl (by omega)
  refine ⟨ha, hl, ?_, ?_, ?_⟩
  · simp [websocketHandler, wsRun_append, wsRun, wsIteration]
  · simp [websocketHandler, wsRun_append, wsRun, wsIteration, maxReconnectDelay]
  · simp [websocketHandler, wsRun_append, wsRun, wsIteration]

/-- C2 witness: three consecutive connection failures sleep 1, 2 and 4
seconds; the slept value 4 is within the claimed bounds. -/
theorem websocket_backoff_invariant_witness : 1 ≤ 4 ∧ 4 ≤ 60 :=
  (websocket_backoff_invariant
      [.failBeforeConnect, .failBeforeConnect, .failBeforeConnect]).1 4
    (by simp [websocketHandler, wsRun, wsIteration, maxReconnectDelay])

/-! ## Claim C3: failing polls return stale data -/

/-- C3: when fetching raises, `_async_update_data` does not propagate
the exception: it returns the previously cached dictionary unchanged,
or, with nothing cached, the minimal default structure whose
`latest_visitor`, `latest_image`, `doorbell_state`, `visitor_stats`,
`system_info` and `last_service_call` entries are all empty
dictionaries. -/
theorem update_data_error_stale (e : String) (cached : Option Dict) (lastId : JValue) :
    (∀ d, cached = some d → d ≠ [] → asyncUpdateData (.error e) cached lastId = d) ∧
      ((cached = none ∨ cached = some []) →
        asyncUpdateData (.error e) cached lastId = defaultCoordinatorData) ∧
      lookupKey defaultCoordinatorData "latest_visitor" = some (.obj []) ∧
      lookupKey defaultCoordinatorData "latest_image" = some (.obj []) ∧
      lookupKey defaultCoordinatorData "doorbell_state" = some (.obj []) ∧
      lookupKey defaultCoordinatorData "visitor_stats" = some (.obj []) ∧
      lookupKey defaultCoordinatorData "system_info" = some (.obj []) ∧
      lookupKey defaultCoordinatorData "last_service_call" = some (.obj []) := by
  refine ⟨?_, ?_, rfl, rfl, rfl, rfl, rfl, rfl⟩
  · rintro d rfl hne
    match d, hne with
    | (k, v) :: rest, _ => simp [asyncUpdateData]
  · rintro (rfl | rfl) <;> rfl

/-- C3 witness: a failing poll with a one-entry cached dictionary
returns that dictionary unchanged. -/
theorem update_data_error_stale_witness :
    asyncUpdateData (.error "connection refused")
        (some [("latest_visitor", .obj [("visitor_id", .str "v1")])]) .null =
      [("latest_visitor", .obj [("visitor_id", .str "v1")])] :=
  (update_data_error_stale "connection refused"
      (some [("latest_visitor", .obj [("visitor_id", .str "v1")])]) .null).1
    _ rfl (by simp)

/-! ## Claim C8: the automation-started event never leaks the api key -/

/-- C8: every event `async_start` fires publishes the sanitized copy of
the engine's config, which has no `api_key` entry; two configurations
differing only in their `api_key` value publish identical events; and
the engine's own config dictionary is left unchanged. -/
theorem automation_started_no_api_key (st : EngineState) (initOk : Bool) (nowIso : String) :
    (∀ ev ∈ (asyncStart st initOk nowIso).2.2,
       lookupKey ev.payload "config" = some (.obj (getSanitizedConfig st.config)) ∧
         lookupKey (getSanitizedConfig st.config) "api_key" = none) ∧
      (∀ cfg v1 v2 run,
        (asyncStart ⟨setKey cfg "api_key" v1, run⟩ initOk nowIso).2.2 =
          (asyncStart ⟨setKey cfg "api_key" v2, run⟩ initOk nowIso).2.2) ∧
      (asyncStart st initOk nowIso).1.config = st.config := by
  refine ⟨?_, ?_, ?_⟩
  · intro ev hev
    by_cases hrun : st.isRunning
    · simp [asyncStart, hrun] at hev
    · by_cases hinit : initOk
      · simp [asyncStart, hrun, hinit] at hev
        subst hev
        exact ⟨rfl, lookupKey_eraseKey_self st.config "api_key"⟩
      · simp [asyncStart, hrun, hinit] at hev
  · intro cfg v1 v2 run
    by_cases hrun : run <;> by_cases hinit : initOk <;>
      simp [asyncStart, hrun, hinit, getSanitizedConfig, eraseKey_setKey]
  · by_cases hrun : st.isRunning <;> by_cases hinit : initOk <;>
      simp [asyncStart, hrun, hinit]

/-- C8 witness: a started engine with an api key in its config
publishes a config without the `api_key` entry, and two configs
differing only in the api-key value publish identical events. -/
theorem automation_started_no_api_key_witness :
    lookupKey
        (getSanitizedConfig [("api_key", .str "secret"), ("camera_entity", .str "camera.front")])
        "api_key" = none ∧
      (asyncStart ⟨setKey [("camera_entity", .str "camera.front")] "api_key" (.str "a"), false⟩
          true "2026-01-01T00:00:00").2.2 =
        (asyncStart ⟨setKey [("camera_entity", .str "camera.front")] "api_key" (.str "b"), false⟩
          true "2026-01-01T00:00:00").2.2 := by
  constructor
  · exact ((automation_started_no_api_key
        ⟨[("api_key", .str "secret"), ("camera_entity", .str "camera.front")], false⟩
        true "2026-01-01T00:00:00").1
      ⟨EVENT_AUTOMATION_STARTED,
        [("timestamp", .str "2026-01-01T00:00:00"),
         ("config", .obj (getSanitizedConfig
           [("api_key", .str "secret"), ("camera_entity", .str "camera.front")]))]⟩
      (by simp [asyncStart])).2
  · exact (automation_started_no_api_key ⟨[], false⟩ true "2026-01-01T00:00:00").2.1
      [("camera_entity", .str "camera.front")] (.str "a") (.str "b") false

/-! ## Claim C10: the new-visitor dichotomy -/

/-- C10: `_handle_new_visitor` fires exactly one of the two events —
the known-visitor one exactly when `faces_detected > 0` and a non-None
`person_id` are present, the plain visitor one otherwise — and the
remembered last visitor id becomes the event's `visitor_id`. -/
theorem new_visitor_exactly_one_event (v : Dict) (known : Bool)
    (h : isKnownVisitor v = some known) :
    (handleNewVisitor v).1 = dictGet v "visitor_id" ∧
      (handleNewVisitor v).2 =
        some ⟨if known then EVENT_KNOWN_VISITOR_DETECTED else EVENT_VISITOR_DETECTED,
              newVisitorPayload v known⟩ ∧
      (known = true ↔
        pyGtZero (dictGetD v "faces_detected" (.num 0)) = some true ∧
          hasPersonId v = true) ∧
      EVENT_KNOWN_VISITOR_DETECTED ≠ EVENT_VISITOR_DETECTED := by
  refine ⟨?_, ?_, ?_, by decide⟩
  · simp [handleNewVisitor, h]
  · simp [handleNewVisitor, h]
  · unfold isKnownVisitor at h
    cases hgt : pyGtZero (dictGetD v "faces_detected" (.num 0)) with
    | none => rw [hgt] at h; exact absurd h (by simp)
    | some gt =>
      rw [hgt] at h
      cases gt with
      | false =>
        simp only [Bool.false_eq_true, if_false, Option.some.injEq] at h
        subst h
        simp [hgt]
      | true =>
        simp only [if_true, Option.some.injEq] at h
        subst h
        simp [hgt]

/-- C10 witness: a visitor with two detected faces and a person id
fires the known-visitor event with the remembered id updated. -/
theorem new_visitor_exactly_one_event_witness :
    (handleNewVisitor
        [("visitor_id", .str "v42"), ("faces_detected", .num 2), ("person_id", .num 7)]).1 =
      .str "v42" ∧
      (handleNewVisitor
          [("visitor_id", .str "v42"), ("faces_detected", .num 2), ("person_id", .num 7)]).2 =
        some ⟨EVENT_KNOWN_VISITOR_DETECTED,
          newVisitorPayload
            [("visitor_id", .str "v42"), ("faces_detected", .num 2), ("person_id", .num 7)] true⟩ := by
  have h := new_visitor_exactly_one_event
    [("visitor_id", .str "v42"), ("faces_detected", .num 2), ("person_id", .num 7)] true
    (by decide)
  exact ⟨h.1, by simpa using h.2.1⟩

/-! ## Claim C5: message-type dispatch -/

/-- C5: a string frame not starting with a brace is routed as a simple
string message; `_handle_string_message` matches the five literals and
requests a refresh for every string message, known or unknown;
`_handle_json_message` dispatches on the `type` field to the matching
handler — an unknown type to none of them — and requests a refresh
after every JSON message. -/
theorem websocket_message_dispatch :
    (∀ cs parseResult, startsWithChars "\x7b".toList (stripChars cs) = false →
        routeWebSocketMessage cs parseResult = .stringMsg (stripChars cs)) ∧
      (∀ m : String, (handleStringMessage m).2 = true) ∧
      (handleStringMessage "new_visitor").1 = .newVisitor ∧
      (handleStringMessage "system_update").1 = .systemUpdate ∧
      (handleStringMessage "doorbell_ring").1 = .doorbellRing ∧
      (handleStringMessage "face_processing_complete").1 = .faceProcessingComplete ∧
      (handleStringMessage "ai_analysis_complete").1 = .aiAnalysisComplete ∧
      (∀ m : String,
        m ∉ (["new_visitor", "system_update", "doorbell_ring",
            "face_processing_complete", "ai_analysis_complete"] : List String) →
          (handleStringMessage m).1 = .unknown) ∧
      (∀ msg : Dict, (handleJsonMessage msg).2 = true) ∧
      (∀ msg : Dict, jsonMessageType msg = .str "new_visitor" →
        (handleJsonMessage msg).1 = .newVisitor) ∧
      (∀ msg : Dict, jsonMessageType msg = .str "ai_analysis_complete" →
        (handleJsonMessage msg).1 = .aiAnalysisComplete) ∧
      (∀ msg : Dict, jsonMessageType msg = .str "face_detection_complete" →
        (handleJsonMessage msg).1 = .faceDetectionComplete) ∧
      (∀ msg : Dict, ∀ t : String, jsonMessageType msg = .str t →
        t ∉ (["new_visitor", "ai_analysis_complete", "face_detection_complete",
            "system_status", "connection_status", "face_recognized",
            "unknown_face_detected", "face_processing_complete",
            "face_processing_error", "database_cleared", "analysis_started",
            "analysis_complete", "analysis_error"] : List String) →
          (handleJsonMessage msg).1 = .unknownType) := by
  refine ⟨?_, ?_, rfl, rfl, rfl, rfl, rfl, ?_, ?_, ?_, ?_, ?_, ?_⟩
  · intro cs parseResult h
    unfold routeWebSocketMessage
    rw [h]
    simp
  · intro m
    unfold handleStringMessage
    split_ifs <;> rfl
  · intro m hmem
    unfold handleStringMessage
    split_ifs <;> simp_all
  · intro msg
    rfl
  · intro msg h
    simp [handleJsonMessage, h, dispatchJsonType]
  · intro msg h
    simp [handleJsonMessage, h, dispatchJsonType]
  · intro msg h
    simp [handleJsonMessage, h, dispatchJsonType]
  · intro msg t ht hmem
    simp only [List.mem_cons, List.not_mem_nil, or_false, not_or] at hmem
    obtain ⟨h1, h2, h3, h4, h5, h6, h7, h8, h9, h10, h11, h12, h13⟩ := hmem
    simp only [handleJsonMessage, ht, dispatchJsonType, if_neg h1, if_neg h2,
      if_neg h3, if_neg h4, if_neg h5, if_neg h6, if_neg h7, if_neg h8, if_neg h9,
      if_neg h10, if_neg h11, if_neg h12, if_neg h13]

/-- C5 witness: an unknown string message still classifies as unknown
with the refresh requested; an unknown JSON type dispatches to no
handler yet still requests a refresh; a plain string frame routes as a
string message. -/
theorem websocket_message_dispatch_witness :
    (handleStringMessage "ping").1 = .unknown ∧
      (handleStringMessage "ping").2 = true ∧
      (handleJsonMessage [("type", .str "party"), ("data", .obj [])]).1 = .unknownType ∧
      (handleJsonMessage [("type", .str "party"), ("data", .obj [])]).2 = true ∧
      routeWebSocketMessage "doorbell_ring".toList none =
        .stringMsg (stripChars "doorbell_ring".toList) := by
  have h := websocket_message_dispatch
  refine ⟨h.2.2.2.2.2.2.2.1 "ping" (by decide), h.2.1 "ping", ?_, ?_, ?_⟩
  · exact h.2.2.2.2.2.2.2.2.2.2.2.2 [("type", .str "party"), ("data", .obj [])] "party"
      rfl (by decide)
  · exact h.2.2.2.2.2.2.2.2.1 [("type", .str "party"), ("data", .obj [])]
  · exact h.1 "doorbell_ring".toList none (by decide)

/-! ## Claim C4: merging a pushed AI-analysis event -/

/-- C4: on a JSON message of type `ai_analysis_complete` with truthy
cached data, the coordinator merges rather than replaces: only the
`latest_visitor` entry (its `processing_time`, `analysis_provider` and
`analysis_timestamp` fields) and the `analysis_status` entry change,
every other key — and every other field of `latest_visitor` — keeps
its previous value, and `whorang_ai_analysis_complete` is fired. -/
theorem ai_analysis_merge (analysisData cached : Dict) (lv : Dict)
    (hne : cached ≠ [])
    (hlv : lookupKey cached "latest_visitor" = some (.obj lv)) :
    ∃ d, handleAiAnalysisComplete analysisData cached =
        some (d, [⟨EVENT_AI_ANALYSIS_COMPLETE, aiAnalysisEventPayload analysisData⟩]) ∧
      (∀ k, k ≠ "latest_visitor" → k ≠ "analysis_status" →
        lookupKey d k = lookupKey cached k) ∧
      lookupKey d "latest_visitor" =
        some (.obj (updateDict lv (latestVisitorAnalysisFields analysisData))) ∧
      (∀ f, f ≠ "processing_time" → f ≠ "analysis_provider" → f ≠ "analysis_timestamp" →
        lookupKey (updateDict lv (latestVisitorAnalysisFields analysisData)) f =
          lookupKey lv f) ∧
      lookupKey (updateDict lv (latestVisitorAnalysisFields analysisData))
          "processing_time" = some (aiProcessingTime analysisData) ∧
      lookupKey (updateDict lv (latestVisitorAnalysisFields analysisData))
          "analysis_provider" = some (dictGet analysisData "ai_provider") ∧
      lookupKey (updateDict lv (latestVisitorAnalysisFields analysisData))
          "analysis_timestamp" = some (dictGet analysisData "timestamp") ∧
      lookupKey d "analysis_status" = some (.obj (aiAnalysisStatusOf analysisData)) ∧
      (handleJsonMessage [("type", .str "ai_analysis_complete"),
          ("data", .obj analysisData)]).1 = .aiAnalysisComplete := by
  have hemp : cached.isEmpty = false := by
    cases cached with
    | nil => exact absurd rfl hne
    | cons a b => rfl
  have hupd : updateDict lv (latestVisitorAnalysisFields analysisData) =
      setKey (setKey (setKey lv "processing_time" (aiProcessingTime analysisData))
          "analysis_provider" (dictGet analysisData "ai_provider"))
        "analysis_timestamp" (dictGet analysisData "timestamp") := by
    simp [updateDict, latestVisitorAnalysisFields]
  refine ⟨setKey (setKey cached "latest_visitor"
      (.obj (updateDict lv (latestVisitorAnalysisFields analysisData))))
      "analysis_status" (.obj (aiAnalysisStatusOf analysisData)),
    ?_, ?_, ?_, ?_, ?_, ?_, ?_, ?_, rfl⟩
  · simp [handleAiAnalysisComplete, hemp, hlv]
  · intro k hk1 hk2
    rw [lookupKey_setKey_ne _ _ _ _ hk2, lookupKey_setKey_ne _ _ _ _ hk1]
  · rw [lookupKey_setKey_ne _ _ _ _ (by decide), lookupKey_setKey_self]
  · intro f hf1 hf2 hf3
    rw [hupd, lookupKey_setKey_ne _ _ _ _ hf3, lookupKey_setKey_ne _ _ _ _ hf2,
      lookupKey_setKey_ne _ _ _ _ hf1]
  · rw [hupd, lookupKey_setKey_ne _ _ _ _ (by decide),
      lookupKey_setKey_ne _ _ _ _ (by decide), lookupKey_setKey_self]
  · rw [hupd, lookupKey_setKey_ne _ _ _ _ (by decide), lookupKey_setKey_self]
  · rw [hupd, lookupKey_setKey_self]
  · rw [lookupKey_setKey_self]

/-- C4 witness: merging a pushed analysis event into a two-entry cached
dictionary leaves the other entry untouched and fires the event. -/
theorem ai_analysis_merge_witness :
    ∃ d, handleAiAnalysisComplete
        [("visitor_id", .str "v1"), ("ai_provider", .str "openai")]
        [("latest_visitor", .obj [("visitor_id", .str "v1")]),
         ("known_persons", .arr [])] =
      some (d, [⟨EVENT_AI_ANALYSIS_COMPLETE,
        aiAnalysisEventPayload [("visitor_id", .str "v1"), ("ai_provider", .str "openai")]⟩]) ∧
      lookupKey d "known_persons" = some (.arr []) := by
  obtain ⟨d, heq, hframe, _⟩ := ai_analysis_merge
    [("visitor_id", .str "v1"), ("ai_provider", .str "openai")]
    [("latest_visitor", .obj [("visitor_id", .str "v1")]), ("known_persons", .arr [])]
    [("visitor_id", .str "v1")] (by simp) rfl
  refine ⟨d, heq, ?_⟩
  rw [hframe "known_persons" (by decide) (by decide)]
  rfl

/-! ## Claim C7: `parse_whorang_url` -/

/-- C7: `parse_whorang_url` raises for empty or whitespace-only input;
for `http://`/`https://` inputs it returns the parsed hostname and
port, defaulting the port to 443 for https and 80 for http, with
`use_ssl` exactly for https; for `host:port` with an integer port it
returns that host and port with `use_ssl` true exactly when the port
is 443, raising for a non-integer port or an empty host; a bare IP
address yields `(ip, 3001, False)`; a bare hostname `(host, 443,
True)`. -/
theorem parse_whorang_url_spec (s : String) :
    (stripChars s.toList = [] → parse_whorang_url s = .error "URL cannot be empty") ∧
      (∀ host port ssl, stripChars s.toList ≠ [] →
        (startsWithChars "http://".toList (stripChars s.toList) = true ∨
          startsWithChars "https://".toList (stripChars s.toList) = true) →
        parse_whorang_url s = .ok ⟨host, port, ssl⟩ →
        (ssl = startsWithChars "https://".toList (stripChars s.toList) ∧
          (urlparseHostPort (stripChars s.toList) = .ok (some host, some port) ∨
            (urlparseHostPort (stripChars s.toList) = .ok (some host, none) ∧
              port = if ssl then 443 else 80)))) ∧
      (stripChars s.toList ≠ [] →
        startsWithChars "http://".toList (stripChars s.toList) = false →
        startsWithChars "https://".toList (stripChars s.toList) = false →
        containsChar ':' (stripChars s.toList) = true →
        (takeUntilChar ':' (stripChars s.toList) = [] →
          parse_whorang_url s = .error "Invalid URL: missing hostname") ∧
          (takeUntilChar ':' (stripChars s.toList) ≠ [] →
            (∀ p, pyInt (dropThroughChar ':' (stripChars s.toList)) = some p →
              ∃ ssl, parse_whorang_url s =
                .ok ⟨String.mk (takeUntilChar ':' (stripChars s.toList)), p, ssl⟩ ∧
                (ssl = true ↔ p = 443)) ∧
            (pyInt (dropThroughChar ':' (stripChars s.toList)) = none →
              parse_whorang_url s = .error "Invalid port number"))) ∧
      (stripChars s.toList ≠ [] →
        startsWithChars "http://".toList (stripChars s.toList) = false →
        startsWithChars "https://".toList (stripChars s.toList) = false →
        containsChar ':' (stripChars s.toList) = false →
        (isIPv4 (stripChars s.toList) = true →
          parse_whorang_url s = .ok ⟨String.mk (stripChars s.toList), 3001, false⟩) ∧
          (isIPv4 (stripChars s.toList) = false →
            parse_whorang_url s = .ok ⟨String.mk (stripChars s.toList), 443, true⟩)) := by
  refine ⟨?_, ?_, ?_, ?_⟩
  · intro h
    rw [parse_whorang_url, if_pos (Or.inr h)]
  · intro host port ssl ht hpre heq
    have hcond : ¬(s.toList = [] ∨ stripChars s.toList = []) := by
      rintro (h0 | h0)
      · exact ht (by rw [h0]; rfl)
      · exact ht h0
    rw [parse_whorang_url, if_neg hcond] at heq
    rw [parseWhorangUrlStripped, if_pos hpre] at heq
    cases hu : urlparseHostPort (stripChars s.toList) with
    | error e =>
      rw [hu] at heq
      exact absurd heq (by simp)
    | ok pair =>
      obtain ⟨hostOpt, portOpt⟩ := pair
      rw [hu] at heq
      cases hostOpt with
      | none => exact absurd heq (by simp)
      | some h0 =>
        cases portOpt with
        | some p0 =>
          simp only [Option.getD, Except.ok.injEq, ParsedUrl.mk.injEq] at heq
          obtain ⟨hh, hp, hs⟩ := heq
          subst hh hp hs
          exact ⟨rfl, Or.inl rfl⟩
        | none =>
          simp only [Option.getD, Except.ok.injEq, ParsedUrl.mk.injEq] at heq
          obtain ⟨hh, hp, hs⟩ := heq
          subst hh hs
          exact ⟨rfl, Or.inr ⟨rfl, hp.symm⟩⟩
  · intro ht h1 h2 hcol
    have hcond : ¬(s.toList = [] ∨ stripChars s.toList = []) := by
      rintro (h0 | h0)
      · exact ht (by rw [h0]; rfl)
      · exact ht h0
    have hnpre : ¬(startsWithChars "http://".toList (stripChars s.toList) = true ∨
        startsWithChars "https://".toList (stripChars s.toList) = true) := by
      rintro (hx | hx)
      · rw [h1] at hx
        cases hx
      · rw [h2] at hx
        cases hx
    constructor
    · intro hhost
      rw [parse_whorang_url, if_neg hcond, parseWhorangUrlStripped, if_neg hnpre,
        if_pos hcol, if_pos hhost]
    · intro hhost
      constructor
      · intro p hp
        refine ⟨(p == 443), ?_, beq_iff_eq⟩
        rw [parse_whorang_url, if_neg hcond, parseWhorangUrlStripped, if_neg hnpre,
          if_pos hcol, if_neg hhost, hp]
      · intro hp
        rw [parse_whorang_url, if_neg hcond, parseWhorangUrlStripped, if_neg hnpre,
          if_pos hcol, if_neg hhost, hp]
  · intro ht h1 h2 hcol
    have hcond : ¬(s.toList = [] ∨ stripChars s.toList = []) := by
      rintro (h0 | h0)
      · exact ht (by rw [h0]; rfl)
      · exact ht h0
    have hnpre : ¬(startsWithChars "http://".toList (stripChars s.toList) = true ∨
        startsWithChars "https://".toList (stripChars s.toList) = true) := by
      rintro (hx | hx)
      · rw [h1] at hx
        cases hx
      · rw [h2] at hx
        cases hx
    have hncol : ¬ containsChar ':' (stripChars s.toList) = true := by
      intro hx
      rw [hcol] at hx
      cases hx
    constructor
    · intro hip
      rw [parse_whorang_url, if_neg hcond, parseWhorangUrlStripped, if_neg hnpre,
        if_neg hncol, if_pos hip]
      rfl
    · intro hip
      have hnip : ¬ isIPv4 (stripChars s.toList) = true := by
        intro hx
        rw [hip] at hx
        cases hx
      rw [parse_whorang_url, if_neg hcond, parseWhorangUrlStripped, if_neg hnpre,
        if_neg hncol, if_neg hnip]

/-- C7 witness: four concrete inputs, one per shape — a full URL with
explicit port, a `host:port` pair, a bare IPv4 address and a bare
hostname. -/
theorem parse_whorang_url_spec_witness :
    parse_whorang_url "192.168.1.50" = .ok ⟨"192.168.1.50", 3001, false⟩ ∧
      parse_whorang_url "doorbell.example.org" = .ok ⟨"doorbell.example.org", 443, true⟩ ∧
      parse_whorang_url "192.168.1.50:8080" = .ok ⟨"192.168.1.50", 8080, false⟩ ∧
      parse_whorang_url "nas.local:443" = .ok ⟨"nas.local", 443, true⟩ := by
  refine ⟨?_, ?_, ?_, ?_⟩
  · exact ((parse_whorang_url_spec "192.168.1.50").2.2.2 (by decide) (by decide)
      (by decide) (by decide)).1 (by decide)
  · exact ((parse_whorang_url_spec "doorbell.example.org").2.2.2 (by decide) (by decide)
      (by decide) (by decide)).2 (by decide)
  · obtain ⟨ssl, heq, hiff⟩ := (((parse_whorang_url_spec "192.168.1.50:8080").2.2.1
      (by decide) (by decide) (by decide) (by decide)).2 (by decide)).1 8080 (by decide)
    have hssl : ssl = false := by
      cases hssl0 : ssl with
      | false => rfl
      | true => exact absurd (hiff.mp hssl0) (by decide)
    rw [hssl] at heq
    exact heq
  · obtain ⟨ssl, heq, hiff⟩ := (((parse_whorang_url_spec "nas.local:443").2.2.1
      (by decide) (by decide) (by decide) (by decide)).2 (by decide)).1 443 (by decide)
    rw [hiff.mpr rfl] at heq
    exact heq

/-! ## Claim C9: `async_process_doorbell_event` atomicity -/

theorem setKey_setKey_same (d : Dict) (k : String) (v w : JValue) :
    setKey (setKey d k v) k w = setKey d k w := by
  induction d with
  | nil => simp [setKey]
  | cons kv rest ih =>
    obtain ⟨k1, v1⟩ := kv
    by_cases h : k1 = k
    · simp [setKey, h]
    · simp [setKey, h, ih]

/-- C9: a missing or falsy `image_url`, a falsy backend reply, or a
backend call that raises all return `False` with the coordinator's
cached dictionary unchanged and no event; only a successful backend
call updates `latest_visitor`, `latest_image`, `doorbell_state`,
`last_service_call`, `visitor_stats` and `system_info`, fires
`whorang_visitor_detected`, and returns `True`. -/
theorem doorbell_event_atomic (eventData cached : Dict) (backend : BackendCall)
    (nowIso today : String) (nowEpoch : Int) :
    ((dictGet eventData "image_url").truthy = false →
      processDoorbellEvent eventData backend cached nowIso nowEpoch today =
        (false, cached, [])) ∧
      (backend ≠ .success → (dictGet eventData "image_url").truthy = true →
        processDoorbellEvent eventData backend cached nowIso nowEpoch today =
          (false, cached, [])) ∧
      ((dictGet eventData "image_url").truthy = true → backend = .success →
        (lookupKey cached "visitor_stats" = none ∨
          ∃ vs, lookupKey cached "visitor_stats" = some (.obj vs) ∧
            (bumpVisitorStats vs today).isSome) →
        (lookupKey cached "system_info" = none ∨
          ∃ si, lookupKey cached "system_info" = some (.obj si)) →
        ∃ d, processDoorbellEvent eventData backend cached nowIso nowEpoch today =
            (true, d,
              [⟨EVENT_VISITOR_DETECTED, doorbellEventPayload eventData nowIso nowEpoch⟩]) ∧
          lookupKey d "latest_visitor" =
            some (.obj (visitorDataOf eventData nowIso nowEpoch)) ∧
          lookupKey d "latest_image" =
            some (.obj (latestImageOf (dictGet eventData "image_url") nowIso)) ∧
          lookupKey d "doorbell_state" = some (.obj (doorbellStateOf nowIso)) ∧
          lookupKey d "last_service_call" =
            some (.obj (lastServiceCallOf eventData nowIso)) ∧
          (lookupKey d "visitor_stats").isSome = true ∧
          (lookupKey d "system_info").isSome = true) := by
  have hfalsy : (dictGet eventData "image_url").truthy = false →
      ¬ (dictGet eventData "image_url").truthy = true := by
    intro h hx
    rw [h] at hx
    cases hx
  refine ⟨?_, ?_, ?_⟩
  · intro h
    rw [processDoorbellEvent.eq_def, if_pos (hfalsy h)]
  · intro hb htr
    rw [processDoorbellEvent.eq_def, if_neg (not_not_intro htr)]
    cases backend with
    | success => exact absurd rfl hb
    | failure => rfl
    | raised => rfl
  · intro htr hb hvs hsi
    subst hb
    rw [processDoorbellEvent.eq_def, if_neg (not_not_intro htr)]
    have hd1 : updateDict cached
        [("latest_visitor", .obj (visitorDataOf eventData nowIso nowEpoch)),
         ("latest_image", .obj (latestImageOf (dictGet eventData "image_url") nowIso)),
         ("doorbell_state", .obj (doorbellStateOf nowIso)),
         ("last_service_call", .obj (lastServiceCallOf eventData nowIso))] =
        setKey (setKey (setKey (setKey cached
          "latest_visitor" (.obj (visitorDataOf eventData nowIso nowEpoch)))
          "latest_image" (.obj (latestImageOf (dictGet eventData "image_url") nowIso)))
          "doorbell_state" (.obj (doorbellStateOf nowIso)))
          "last_service_call" (.obj (lastServiceCallOf eventData nowIso)) := by
      simp [updateDict]
    set d1 := updateDict cached
      [("latest_visitor", .obj (visitorDataOf eventData nowIso nowEpoch)),
       ("latest_image", .obj (latestImageOf (dictGet eventData "image_url") nowIso)),
       ("doorbell_state", .obj (doorbellStateOf nowIso)),
       ("last_service_call", .obj (lastServiceCallOf eventData nowIso))] with hd1def
    have hlv1 : lookupKey d1 "latest_visitor" =
        some (.obj (visitorDataOf eventData nowIso nowEpoch)) := by
      rw [hd1, lookupKey_setKey_ne _ _ _ _ (by decide), lookupKey_setKey_ne _ _ _ _ (by decide),
        lookupKey_setKey_ne _ _ _ _ (by decide), lookupKey_setKey_self]
    have hli1 : lookupKey d1 "latest_image" =
        some (.obj (latestImageOf (dictGet eventData "image_url") nowIso)) := by
      rw [hd1, lookupKey_setKey_ne _ _ _ _ (by decide), lookupKey_setKey_ne _ _ _ _ (by decide),
        lookupKey_setKey_self]
    have hdb1 : lookupKey d1 "doorbell_state" = some (.obj (doorbellStateOf nowIso)) := by
      rw [hd1, lookupKey_setKey_ne _ _ _ _ (by decide), lookupKey_setKey_self]
    have hsc1 : lookupKey d1 "last_service_call" =
        some (.obj (lastServiceCallOf eventData nowIso)) := by
      rw [hd1, lookupKey_setKey_self]
    have hvs1 : lookupKey d1 "visitor_stats" = lookupKey cached "visitor_stats" := by
      rw [hd1, lookupKey_setKey_ne _ _ _ _ (by decide), lookupKey_setKey_ne _ _ _ _ (by decide),
        lookupKey_setKey_ne _ _ _ _ (by decide), lookupKey_setKey_ne _ _ _ _ (by decide)]
    have hsi1 : lookupKey d1 "system_info" = lookupKey cached "system_info" := by
      rw [hd1, lookupKey_setKey_ne _ _ _ _ (by decide), lookupKey_setKey_ne _ _ _ _ (by decide),
        lookupKey_setKey_ne _ _ _ _ (by decide), lookupKey_setKey_ne _ _ _ _ (by decide)]
    have hbump0 : bumpVisitorStats [] today =
        some [("today", .num 1), ("date", .str today)] := rfl
    rcases hvs with hnone | ⟨vs, hvsome, hbumpsome⟩ <;>
      rcases hsi with hsinone | ⟨si, hsisome⟩
    · refine ⟨setKey (setKey (setKey (setKey d1 "visitor_stats" (.obj []))
          "visitor_stats" (.obj [("today", .num 1), ("date", .str today)]))
          "system_info" (.obj []))
          "system_info"
          (.obj (updateDict []
            [("last_event", .str nowIso), ("processing", .bool false),
             ("last_service_call", .str nowIso)])), ?_, ?_, ?_, ?_, ?_, ?_, ?_⟩
      · simp [hvs1, hnone, hsi1, hsinone, hbump0, lookupKey_setKey_self,
          lookupKey_setKey_ne]
      · simp [lookupKey_setKey_ne, hlv1]
      · simp [lookupKey_setKey_ne, hli1]
      · simp [lookupKey_setKey_ne, hdb1]
      · simp [lookupKey_setKey_ne, hsc1]
      · simp [lookupKey_setKey_ne, lookupKey_setKey_self]
      · simp [lookupKey_setKey_self]
    · refine ⟨setKey (setKey (setKey d1 "visitor_stats" (.obj []))
          "visitor_stats" (.obj [("today", .num 1), ("date", .str today)]))
          "system_info"
          (.obj (updateDict si
            [("last_event", .str nowIso), ("processing", .bool false),
             ("last_service_call", .str nowIso)])), ?_, ?_, ?_, ?_, ?_, ?_, ?_⟩
      · simp [hvs1, hnone, hsi1, hsisome, hbump0, lookupKey_setKey_self,
          lookupKey_setKey_ne]
      · simp [lookupKey_setKey_ne, hlv1]
      · simp [lookupKey_setKey_ne, hli1]
      · simp [lookupKey_setKey_ne, hdb1]
      · simp [lookupKey_setKey_ne, hsc1]
      · simp [lookupKey_setKey_ne, lookupKey_setKey_self]
      · simp [lookupKey_setKey_self]
    · obtain ⟨vs2, hvs2⟩ := Option.isSome_iff_exists.mp hbumpsome
      refine ⟨setKey (setKey (setKey d1 "visitor_stats" (.obj vs2))
          "system_info" (.obj []))
          "system_info"
          (.obj (updateDict []
            [("last_event", .str nowIso), ("processing", .bool false),
             ("last_service_call", .str nowIso)])), ?_, ?_, ?_, ?_, ?_, ?_, ?_⟩
      · simp [hvs1, hvsome, hsi1, hsinone, hvs2, lookupKey_setKey_self,
          lookupKey_setKey_ne]
      · simp [lookupKey_setKey_ne, hlv1]
      · simp [lookupKey_setKey_ne, hli1]
      · simp [lookupKey_setKey_ne, hdb1]
      · simp [lookupKey_setKey_ne, hsc1]
      · simp [lookupKey_setKey_ne, lookupKey_setKey_self]
      · simp [lookupKey_setKey_self]
    · obtain ⟨vs2, hvs2⟩ := Option.isSome_iff_exists.mp hbumpsome
      refine ⟨setKey (setKey d1 "visitor_stats" (.obj vs2))
          "system_info"
          (.obj (updateDict si
            [("last_event", .str nowIso), ("processing", .bool false),
             ("last_service_call", .str nowIso)])), ?_, ?_, ?_, ?_, ?_, ?_, ?_⟩
      · simp [hvs1, hvsome, hsi1, hsisome, hvs2, lookupKey_setKey_self,
          lookupKey_setKey_ne]
      · simp [lookupKey_setKey_ne, hlv1]
      · simp [lookupKey_setKey_ne, hli1]
      · simp [lookupKey_setKey_ne, hdb1]
      · simp [lookupKey_setKey_ne, hsc1]
      · simp [lookupKey_setKey_ne, lookupKey_setKey_self]
      · simp [lookupKey_setKey_self]

/-- C9 witness: on a concrete event, a failing backend call leaves the
cache untouched and returns `False`; a successful one returns `True`
with the `whorang_visitor_detected` event fired. -/
theorem doorbell_event_atomic_witness :
    processDoorbellEvent [("image_url", .str "http://ha/local/s.jpg")] .failure
        [("visitor_stats", .obj [])] "2026-01-01T00:00:00" 1767225600 "2026-01-01" =
      (false, [("visitor_stats", .obj [])], []) ∧
      ∃ d, processDoorbellEvent [("image_url", .str "http://ha/local/s.jpg")] .success
          [("visitor_stats", .obj [])] "2026-01-01T00:00:00" 1767225600 "2026-01-01" =
        (true, d,
          [⟨EVENT_VISITOR_DETECTED,
            doorbellEventPayload [("image_url", .str "http://ha/local/s.jpg")]
              "2026-01-01T00:00:00" 1767225600⟩]) := by
  have h1 := doorbell_event_atomic [("image_url", .str "http://ha/local/s.jpg")]
    [("visitor_stats", .obj [])] .failure "2026-01-01T00:00:00" "2026-01-01" 1767225600
  have h2 := doorbell_event_atomic [("image_url", .str "http://ha/local/s.jpg")]
    [("visitor_stats", .obj [])] .success "2026-01-01T00:00:00" "2026-01-01" 1767225600
  refine ⟨h1.2.1 (by decide) rfl, ?_⟩
  obtain ⟨d, heq, -⟩ := h2.2.2 rfl rfl
    (Or.inr ⟨[], rfl, by rfl⟩) (Or.inl rfl)
  exact ⟨d, heq⟩

/-! ## Claim C6: the shape of a successful poll result -/

/-- C6: every successful poll returns a dictionary holding entries for
the latest visitor record, person/face records (`known_persons`,
`face_gallery_data`), AI usage stats, Ollama and available model
lists, together with `system_info`, the current AI provider and model,
a `last_update` timestamp and the `websocket_connected` flag; and the
`latest_image`, `doorbell_state`, `visitor_stats` and
`last_service_call` entries of the previous dictionary are carried
over unchanged. -/
theorem poll_result_entries (f : FetchResults) (cached : Option Dict)
    (lastId : JValue) (r : Dict)
    (h : updateDataSuccess f cached lastId = some r) :
    (lookupKey r "latest_visitor").isSome = true ∧
      (lookupKey r "known_persons").isSome = true ∧
      (lookupKey r "face_gallery_data").isSome = true ∧
      (lookupKey r "ai_usage").isSome = true ∧
      (lookupKey r "ollama_models").isSome = true ∧
      (lookupKey r "available_models").isSome = true ∧
      (lookupKey r "system_info").isSome = true ∧
      (lookupKey r "current_ai_provider").isSome = true ∧
      (lookupKey r "current_ai_model").isSome = true ∧
      (lookupKey r "last_update").isSome = true ∧
      (lookupKey r "websocket_connected").isSome = true ∧
      (∀ k ∈ serviceKeys, ∀ d, cached = some d → (lookupKey d k).isSome = true →
        lookupKey r k = lookupKey d k) := by
  unfold updateDataSuccess at h
  split at h
  · exact absurd h (by simp)
  · split at h
    · exact absurd h (by simp)
    · rename_i providerVal heq2
      by_cases hnv : newVisitorCheckRaises f lastId = true
      · rw [if_pos hnv] at h
        exact absurd h (by simp)
      · rw [if_neg hnv] at h
        have hr : r = pollResult f cached providerVal := (Option.some.inj h).symm
        subst hr
        have hmain : ∀ key, key ∉ serviceKeys →
            lookupKey (pollResult f cached providerVal) key =
              lookupKey (pollBase f providerVal) key := by
          intro key hk
          cases cached with
          | none => rfl
          | some d =>
            by_cases hemp : d.isEmpty
            · simp [pollResult, hemp]
            · simp [pollResult, hemp, lookupKey_copyKeys_not_mem _ _ _ _ hk]
        have hcarry : ∀ k ∈ serviceKeys, ∀ d, cached = some d →
            (lookupKey d k).isSome = true →
            lookupKey (pollResult f cached providerVal) k = lookupKey d k := by
          intro k hk d hd hsome
          subst hd
          have hemp : d.isEmpty = false := by
            cases d with
            | nil => simp [lookupKey] at hsome
            | cons a b => rfl
          simp only [pollResult, hemp, Bool.not_false, if_true]
          exact lookupKey_copyKeys_mem serviceKeys d _ k hk (by decide) hsome
        refine ⟨?_, ?_, ?_, ?_, ?_, ?_, ?_, ?_, ?_, ?_, ?_, hcarry⟩ <;>
          rw [hmain _ (by decide)] <;> simp [pollBase, lookupKey]

/-- C6 witness: a concrete successful poll against a cached dictionary
carries its `visitor_stats` entry over and has the advertised keys. -/
theorem poll_result_entries_witness :
    ∃ r, updateDataSuccess
        ⟨[("face_config", .obj [("ai_provider", .str "openai")])], none, [],
         [], [], .str "gpt-4o", [("openai", .arr [])], .ok [], .ok [], .ok [],
         "2026-01-01T00:00:00", true⟩
        (some [("visitor_stats", .obj [("today", .num 3)])]) .null = some r ∧
      (lookupKey r "latest_visitor").isSome = true ∧
      lookupKey r "visitor_stats" = some (.obj [("today", .num 3)]) := by
  have hsome : (updateDataSuccess
      ⟨[("face_config", .obj [("ai_provider", .str "openai")])], none, [],
       [], [], .str "gpt-4o", [("openai", .arr [])], .ok [], .ok [], .ok [],
       "2026-01-01T00:00:00", true⟩
      (some [("visitor_stats", .obj [("today", .num 3)])]) .null).isSome = true := rfl
  obtain ⟨r, hr⟩ := Option.isSome_iff_exists.mp hsome
  have h := poll_result_entries
    ⟨[("face_config", .obj [("ai_provider", .str "openai")])], none, [],
     [], [], .str "gpt-4o", [("openai", .arr [])], .ok [], .ok [], .ok [],
     "2026-01-01T00:00:00", true⟩
    (some [("visitor_stats", .obj [("today", .num 3)])]) .null r hr
  refine ⟨r, hr, h.1, ?_⟩
  rw [h.2.2.2.2.2.2.2.2.2.2.2 "visitor_stats" (by decide) _ rfl rfl]
  rfl

/-! ## Claim C1: the intelligent-automation pipeline -/

/-- C1 (amended): in `_handle_camera_event` the snapshot comes first;
a failed snapshot stops the pipeline before weather, AI analysis,
notifications, media and the backend call; after a successful snapshot
weather context is gathered exactly when `enable_weather_context` is
set (its default is on) and AI analysis is requested; a failed
analysis stops the pipeline before any fan-out; after a successful
analysis the pipeline fans out to notifications (when
`enable_notifications`), media (when `enable_media`) and the backend
`process_doorbell_event` call, each strictly after the snapshot and
the analysis. -/
theorem camera_pipeline_order (config : Dict) (snap : Option Snapshot)
    (ai : Option AiAnalysis) :
    (snap = none →
      PipelineStep.requestAiAnalysis ∉ handleCameraEvent config snap ai ∧
        PipelineStep.gatherWeather ∉ handleCameraEvent config snap ai ∧
        PipelineStep.sendNotifications ∉ handleCameraEvent config snap ai ∧
        PipelineStep.playMedia ∉ handleCameraEvent config snap ai ∧
        PipelineStep.callProcessDoorbellEvent ∉ handleCameraEvent config snap ai) ∧
      (snap ≠ none →
        (PipelineStep.gatherWeather ∈ handleCameraEvent config snap ai ↔
          cfgFlag config "enable_weather_context" true = true) ∧
          PipelineStep.requestAiAnalysis ∈ handleCameraEvent config snap ai ∧
          List.Sublist [PipelineStep.captureSnapshot, PipelineStep.requestAiAnalysis]
            (handleCameraEvent config snap ai)) ∧
      (snap ≠ none → ai = none →
        PipelineStep.fireAnalysisComplete ∉ handleCameraEvent config snap ai ∧
          PipelineStep.sendNotifications ∉ handleCameraEvent config snap ai ∧
          PipelineStep.playMedia ∉ handleCameraEvent config snap ai ∧
          PipelineStep.callProcessDoorbellEvent ∉ handleCameraEvent config snap ai) ∧
      (snap ≠ none → ai ≠ none →
        PipelineStep.callProcessDoorbellEvent ∈ handleCameraEvent config snap ai ∧
          (PipelineStep.sendNotifications ∈ handleCameraEvent config snap ai ↔
            cfgFlag config "enable_notifications" true = true) ∧
          (PipelineStep.playMedia ∈ handleCameraEvent config snap ai ↔
            cfgFlag config "enable_media" true = true) ∧
          List.Sublist [PipelineStep.captureSnapshot, PipelineStep.requestAiAnalysis,
            PipelineStep.callProcessDoorbellEvent] (handleCameraEvent config snap ai) ∧
          (cfgFlag config "enable_notifications" true = true →
            List.Sublist [PipelineStep.requestAiAnalysis, PipelineStep.sendNotifications]
              (handleCameraEvent config snap ai)) ∧
          (cfgFlag config "enable_media" true = true →
            List.Sublist [PipelineStep.requestAiAnalysis, PipelineStep.playMedia]
              (handleCameraEvent config snap ai))) := by
  cases snap <;> cases ai <;>
    by_cases hw : cfgFlag config "enable_weather_context" true = true <;>
    by_cases hn : cfgFlag config "enable_notifications" true = true <;>
    by_cases hm : cfgFlag config "enable_media" true = true <;>
    simp [handleCameraEvent, hw, hn, hm] <;>
    decide

/-- C1 witness: with an empty config (every feature defaulting to on)
and successful snapshot and analysis, the backend call happens and the
notification fan-out tracks its flag. -/
theorem camera_pipeline_order_witness :
    PipelineStep.callProcessDoorbellEvent ∈
        handleCameraEvent [] (some ⟨"p", "u", "f", "c"⟩) (some ⟨"t", "d"⟩) ∧
      (PipelineStep.sendNotifications ∈
          handleCameraEvent [] (some ⟨"p", "u", "f", "c"⟩) (some ⟨"t", "d"⟩) ↔
        cfgFlag [] "enable_notifications" true = true) := by
  have h := (camera_pipeline_order [] (some ⟨"p", "u", "f", "c"⟩)
    (some ⟨"t", "d"⟩)).2.2.2 (by simp) (by simp)
  exact ⟨h.1, h.2.1⟩

/-- C1 counterexample: with `enable_weather_context` disabled in the
config, a camera event whose snapshot and analysis both succeed runs
the pipeline without ever gathering weather context, refuting the
claim's unconditional "otherwise weather context is gathered" step. -/
theorem camera_pipeline_weather_not_gathered :
    (some (⟨"/config/www/snap.jpg", "http://ha/local/snap.jpg", "snap.jpg",
        "camera.front_door"⟩ : Snapshot)).isSome = true ∧
      PipelineStep.requestAiAnalysis ∈
        handleCameraEvent [("enable_weather_context", .bool false)]
          (some ⟨"/config/www/snap.jpg", "http://ha/local/snap.jpg", "snap.jpg",
            "camera.front_door"⟩)
          (some ⟨"Doorbell", "Visitor detected"⟩) ∧
      PipelineStep.gatherWeather ∉
        handleCameraEvent [("enable_weather_context", .bool false)]
          (some ⟨"/config/www/snap.jpg", "http://ha/local/snap.jpg", "snap.jpg",
            "camera.front_door"⟩)
          (some ⟨"Doorbell", "Visitor detected"⟩) := by
  decide

end WhoRang
